import Mathlib

/-!
Verification of the gold-ecommerce backend's pricing core.

The repository contains two backend variants in one source file.  The
second ("Railway") variant holds the pricing engine used by the claims:
`GoldPriceCalculator.CARAT_FACTORS`, `GoldPriceCalculator.calculatePrice`,
the `POST /api/gold-price` batch-recalculation endpoint, and
`GET /api/products/:id`.  The first variant's inline pricing code
(its `caratFactors` table and `Math.round(newPrice)` loop) is embedded
separately as `caratFactorsV1` / `calculatePriceV1`.

JavaScript numbers are modelled as exact rationals (`ℚ`); `Math.round`
is JavaScript's round-half-towards-positive-infinity, embedded as
`jround`.  Division by zero in the percent-change expression follows
JavaScript semantics (`Infinity` / `-Infinity` / `NaN`), embedded in the
`JsNum` type.  Database rows are lists of records; each SQL statement of
the endpoint is embedded as the corresponding pure list operation.
-/

namespace GoldShop

/-- JavaScript `Math.round`: rounds half towards positive infinity. -/
def jround (x : ℚ) : ℤ := ⌊x + 1/2⌋

/-- `Math.round(x * 100) / 100`, the 2-decimal rounding used by
`GoldPriceCalculator.calculatePrice`. -/
def round2 (x : ℚ) : ℚ := (jround (x * 100) : ℚ) / 100

/-- `GoldPriceCalculator.CARAT_FACTORS` (second variant) together with the
lookup expression `this.CARAT_FACTORS[product.carat] || 1`; every table
value is nonzero (hence truthy), so `|| 1` fires exactly on labels absent
from the table. -/
def caratFactors (c : String) : ℚ :=
  if c = "24K" then 1
  else if c = "22K" then 9167/10000
  else if c = "21K" then 875/1000
  else if c = "18K" then 750/1000
  else if c = "14K" then 585/1000
  else if c = "10K" then 417/1000
  else 1

/-- The first variant's inline `caratFactors` table with its lookup
`caratFactors[product.carat] || 1`; it has no `10K` row and maps `22K`
to `0.916`. -/
def caratFactorsV1 (c : String) : ℚ :=
  if c = "24K" then 1
  else if c = "22K" then 916/1000
  else if c = "21K" then 875/1000
  else if c = "18K" then 75/100
  else if c = "14K" then 585/1000
  else 1

/-- The pricing-relevant attributes of a product, as read by
`GoldPriceCalculator.calculatePrice`. -/
structure ProductAttrs where
  weight : ℚ
  carat : String
  making_charges : ℚ
  profit_margin : ℚ
deriving DecidableEq

/-- The object returned by `GoldPriceCalculator.calculatePrice`. -/
structure PriceBreakdown where
  goldValue : ℚ
  makingCharges : ℚ
  baseCost : ℚ
  sellingPrice : ℚ
deriving DecidableEq

/-- `GoldPriceCalculator.calculatePrice` (second variant): intermediates
are computed unrounded; each of the four returned fields is rounded to
2 decimals in the returned object. -/
def calculatePrice (product : ProductAttrs) (goldPricePerGram : ℚ) : PriceBreakdown :=
  let caratFactor := caratFactors product.carat
  let goldValue := product.weight * goldPricePerGram * caratFactor
  let makingCharges := goldValue * (product.making_charges / 100)
  let baseCost := goldValue + makingCharges
  let sellingPrice := baseCost * (1 + product.profit_margin / 100)
  { goldValue := round2 goldValue
    makingCharges := round2 makingCharges
    baseCost := round2 baseCost
    sellingPrice := round2 sellingPrice }

/-- The same arithmetic as `calculatePrice` with no rounding at all;
used to state where `calculatePrice` applies its rounding. -/
def calculatePriceRaw (product : ProductAttrs) (goldPricePerGram : ℚ) : PriceBreakdown :=
  let caratFactor := caratFactors product.carat
  let goldValue := product.weight * goldPricePerGram * caratFactor
  let makingCharges := goldValue * (product.making_charges / 100)
  let baseCost := goldValue + makingCharges
  let sellingPrice := baseCost * (1 + product.profit_margin / 100)
  { goldValue := goldValue
    makingCharges := makingCharges
    baseCost := baseCost
    sellingPrice := sellingPrice }

/-- Modelled from the spec's wording for the rounding discipline it
asserts: every monetary intermediate rounded to 2 decimals independently
at the step where it is computed, each later step consuming the
already-rounded earlier value.  Compared against `calculatePrice`, which
is embedded from the source. -/
def calculatePriceStepwise (product : ProductAttrs) (goldPricePerGram : ℚ) : PriceBreakdown :=
  let caratFactor := caratFactors product.carat
  let goldValue := round2 (product.weight * goldPricePerGram * caratFactor)
  let makingCharges := round2 (goldValue * (product.making_charges / 100))
  let baseCost := round2 (goldValue + makingCharges)
  let sellingPrice := round2 (baseCost * (1 + product.profit_margin / 100))
  { goldValue := goldValue
    makingCharges := makingCharges
    baseCost := baseCost
    sellingPrice := sellingPrice }

/-- The first variant's inline per-product price computation inside its
`POST /api/gold-price` loop; the value stored and reported is
`Math.round(newPrice)`, an integer. -/
def calculatePriceV1 (product : ProductAttrs) (price_per_gram : ℚ) : ℚ :=
  let factor := caratFactorsV1 product.carat
  let goldValue := product.weight * price_per_gram * factor
  let makingCharges := goldValue * (product.making_charges / 100)
  let profit := (goldValue + makingCharges) * (product.profit_margin / 100)
  (jround (goldValue + makingCharges + profit) : ℚ)

/-- A row of the `products` table (pricing-relevant columns). -/
structure Product where
  id : ℤ
  name : String
  weight : ℚ
  carat : String
  making_charges : ℚ
  profit_margin : ℚ
  selling_price : ℚ
  is_active : Bool
deriving DecidableEq

/-- The attribute record `calculatePrice` reads from a product row. -/
def Product.attrs (p : Product) : ProductAttrs :=
  ⟨p.weight, p.carat, p.making_charges, p.profit_margin⟩

/-- A row of the `gold_prices` table. -/
structure GoldPriceRow where
  price_per_gram : ℚ
  carat : String
deriving DecidableEq

/-- A row of the `price_history` table. -/
structure PriceHistoryRow where
  product_id : ℤ
  old_price : ℚ
  new_price : ℚ
  gold_price_per_gram : ℚ
deriving DecidableEq

/-- The persistent state touched by the endpoints under verification. -/
structure DBState where
  gold_prices : List GoldPriceRow
  products : List Product
  price_history : List PriceHistoryRow
deriving DecidableEq

/-- A JavaScript number as produced by the percent-change expression:
either an ordinary (rational) value, or one of the non-finite values a
division by zero yields. -/
inductive JsNum where
  | num (q : ℚ)
  | inf
  | negInf
  | nan
deriving DecidableEq

/-- The expression
`(priceInfo.sellingPrice - product.selling_price) / product.selling_price * 100`
with JavaScript division semantics: dividing a nonzero value by zero
gives `±Infinity`, and `0 / 0` gives `NaN`. -/
def percentChange (newP oldP : ℚ) : JsNum :=
  if oldP = 0 then
    if 0 < newP then .inf else if newP < 0 then .negInf else .nan
  else .num ((newP - oldP) / oldP * 100)

/-- One element of the `details` array returned by `POST /api/gold-price`. -/
structure UpdateDetail where
  id : ℤ
  name : String
  old_price : ℚ
  new_price : ℚ
  change : JsNum
deriving DecidableEq

/-- The success body of `POST /api/gold-price`. -/
structure GoldPriceResponse where
  updated_products : ℕ
  details : List UpdateDetail
deriving DecidableEq

/-- Error responses of the embedded endpoints. -/
inductive ApiError where
  | invalidInput (msg : String)
  | notFound (msg : String)
deriving DecidableEq

/-- `UPDATE products SET selling_price = ? WHERE id = ?`. -/
def updateProductPrice (ps : List Product) (pid : ℤ) (newPrice : ℚ) : List Product :=
  ps.map fun q => if q.id = pid then { q with selling_price := newPrice } else q

/-- The `price_history` row inserted for one product of the batch. -/
def histRow (price : ℚ) (t : Product) : PriceHistoryRow :=
  ⟨t.id, t.selling_price, (calculatePrice t.attrs price).sellingPrice, price⟩

/-- The `details` element pushed for one product of the batch. -/
def detailRow (price : ℚ) (t : Product) : UpdateDetail :=
  ⟨t.id, t.name, t.selling_price,
    (calculatePrice t.attrs price).sellingPrice,
    percentChange (calculatePrice t.attrs price).sellingPrice t.selling_price⟩

/-- The `for (const product of products)` loop of `POST /api/gold-price`
(second variant): for each product of the snapshot, insert one
`price_history` row, update the product's `selling_price` by id, and
push one detail record. -/
def runBatch (price : ℚ) : List Product → DBState → List UpdateDetail → DBState × List UpdateDetail
  | [], s, acc => (s, acc)
  | product :: rest, s, acc =>
    let priceInfo := calculatePrice product.attrs price
    let s' : DBState :=
      { s with
        price_history := s.price_history ++
          [⟨product.id, product.selling_price, priceInfo.sellingPrice, price⟩],
        products := updateProductPrice s.products product.id priceInfo.sellingPrice }
    runBatch price rest s' (acc ++ [detailRow price product])

/-- `POST /api/gold-price` (second variant).  The request body's
`price_per_gram` is modelled as a rational when present and numeric
(`none` for absent); the guard `!price_per_gram || isNaN(price_per_gram)`
therefore rejects exactly an absent body value or the falsy value `0`.
On success the new gold price row is inserted, the active products are
loaded as the batch snapshot, and the loop runs. -/
def postGoldPrice (price_per_gram : Option ℚ) (carat : String) (s : DBState) :
    Except ApiError (GoldPriceResponse × DBState) :=
  match price_per_gram with
  | none => .error (.invalidInput "Valid price is required")
  | some price =>
    if price = 0 then .error (.invalidInput "Valid price is required")
    else
      let s1 : DBState := { s with gold_prices := s.gold_prices ++ [⟨price, carat⟩] }
      let batch := s1.products.filter fun q => q.is_active
      let result := runBatch price batch s1 []
      .ok ({ updated_products := result.2.length, details := result.2 }, result.1)

/-- `GET /api/products/:id`:
`SELECT * FROM products WHERE id = ? AND is_active = TRUE`, 404 when the
result set is empty, else the first matching row. -/
def getProductById (s : DBState) (pid : ℤ) : Except ApiError Product :=
  match s.products.find? (fun q => q.id == pid && q.is_active) with
  | none => .error (.notFound "Product not found")
  | some q => .ok q

/-- The selling price `calculatePrice` assigns to a product row at a given
gold price. -/
def newSelling (price : ℚ) (q : Product) : ℚ :=
  (calculatePrice q.attrs price).sellingPrice

/-- The sequence of `UPDATE ... WHERE id = ?` statements the batch loop
issues, one per element of the snapshot list. -/
def applyUpdates (price : ℚ) : List Product → List Product → List Product
  | [], qs => qs
  | t :: rest, qs =>
    applyUpdates price rest (updateProductPrice qs t.id (calculatePrice t.attrs price).sellingPrice)

/-- One active product priced 100, for exercising `POST /api/gold-price`
with the negative price `-5`. -/
def s1state : DBState :=
  ⟨[⟨3000, "24K"⟩], [⟨1, "P", 1, "24K", 0, 0, 100, true⟩], []⟩

/-- One active product whose stored `selling_price` is `0`, for
exercising the percent-change division by zero. -/
def s6state : DBState :=
  ⟨[⟨3000, "24K"⟩], [⟨1, "Z", 1, "24K", 0, 0, 0, true⟩], []⟩

/-- Four active products plus one inactive product, the batch scenario of
the spec. -/
def sBatch : DBState :=
  ⟨[⟨3000, "24K"⟩],
   [⟨1, "A", 1, "24K", 0, 0, 10, true⟩,
    ⟨2, "B", 2, "24K", 0, 0, 20, true⟩,
    ⟨3, "C", 3, "24K", 0, 0, 30, true⟩,
    ⟨4, "D", 4, "24K", 0, 0, 40, true⟩,
    ⟨5, "E", 5, "24K", 0, 0, 50, false⟩],
   []⟩

/-- One product that exists but is inactive, for `GET /api/products/:id`. -/
def s10state : DBState :=
  ⟨[], [⟨1, "X", 1, "24K", 0, 0, 10, false⟩], []⟩

/-- Disposition of `jround` at a concrete point, from the floor
characterization. -/
theorem jround_eq {x : ℚ} {z : ℤ} (h1 : (z:ℚ) ≤ x + 1/2) (h2 : x + 1/2 < (z:ℚ) + 1) :
    jround x = z := by
  rw [jround]; exact Int.floor_eq_iff.mpr ⟨h1, h2⟩

/-- Evaluation rule for `round2` at a concrete point. -/
theorem round2_eq_of {x : ℚ} (z : ℤ) {v : ℚ} (h1 : (z:ℚ) ≤ x * 100 + 1/2)
    (h2 : x * 100 + 1/2 < (z:ℚ) + 1) (hv : (z:ℚ) / 100 = v) : round2 x = v := by
  rw [round2, jround_eq h1 h2, hv]

/-- `round2` is monotone. -/
theorem round2_mono {x y : ℚ} (h : x ≤ y) : round2 x ≤ round2 y := by
  rw [round2, round2]
  rw [div_le_div_iff_of_pos_right (by norm_num : (0:ℚ) < 100)]
  exact_mod_cast Int.floor_mono (by linarith : x * 100 + 1/2 ≤ y * 100 + 1/2)

/-- Every carat factor the lookup can produce is positive. -/
theorem caratFactors_pos (c : String) : 0 < caratFactors c := by
  rw [caratFactors]; split_ifs <;> norm_num

/-- The batch's sequence of by-id updates equals a single map over the
table, provided every snapshot element agrees on pricing attributes with
every same-id row (updates never change the pricing attributes, so the
recomputed price can be read off the row itself). -/
theorem applyUpdates_eq_map (price : ℚ) (todo : List Product) :
    ∀ qs : List Product, (∀ t ∈ todo, ∀ q ∈ qs, q.id = t.id → q.attrs = t.attrs) →
    applyUpdates price todo qs =
      qs.map (fun q => if q.id ∈ todo.map Product.id
        then { q with selling_price := newSelling price q } else q) := by
  induction todo with
  | nil => intro qs _; simp [applyUpdates]
  | cons t rest ih =>
    intro qs h
    have hrec : ∀ t' ∈ rest,
        ∀ q' ∈ updateProductPrice qs t.id (calculatePrice t.attrs price).sellingPrice,
        q'.id = t'.id → q'.attrs = t'.attrs := by
      intro t' ht' q' hq' hid
      rw [updateProductPrice] at hq'
      obtain ⟨q, hq, rfl⟩ := List.mem_map.mp hq'
      by_cases hqt : q.id = t.id
      · rw [if_pos hqt] at hid ⊢
        exact h t' (List.mem_cons_of_mem _ ht') q hq hid
      · rw [if_neg hqt] at hid ⊢
        exact h t' (List.mem_cons_of_mem _ ht') q hq hid
    rw [applyUpdates, ih _ hrec, updateProductPrice, List.map_map]
    apply List.map_congr_left
    intro q hq
    simp only [Function.comp_apply]
    by_cases hqt : q.id = t.id
    · have hattrs : q.attrs = t.attrs := h t (List.mem_cons_self t rest) q hq hqt
      have hv : (calculatePrice t.attrs price).sellingPrice = newSelling price q := by
        rw [newSelling, hattrs]
      rw [if_pos hqt, hv]
      simp [List.map_cons, List.mem_cons, hqt, newSelling, Product.attrs, ite_self]
    · rw [if_neg hqt]
      simp [List.map_cons, List.mem_cons, hqt]

/-- The state after the batch loop: gold prices untouched, products
updated via `applyUpdates`, one history row appended per snapshot
element. -/
theorem runBatch_fst (price : ℚ) (todo : List Product) (s : DBState) (acc : List UpdateDetail) :
    (runBatch price todo s acc).1 =
      ⟨s.gold_prices, applyUpdates price todo s.products,
       s.price_history ++ todo.map (histRow price)⟩ := by
  induction todo generalizing s acc with
  | nil => simp [runBatch, applyUpdates]
  | cons t rest ih =>
    rw [runBatch, ih]
    simp [applyUpdates, histRow, List.append_assoc]

/-- The details accumulated by the batch loop: one per snapshot element. -/
theorem runBatch_snd (price : ℚ) (todo : List Product) (s : DBState) (acc : List UpdateDetail) :
    (runBatch price todo s acc).2 = acc ++ todo.map (detailRow price) := by
  induction todo generalizing s acc with
  | nil => simp [runBatch]
  | cons t rest ih =>
    rw [runBatch, ih]
    simp [detailRow, List.append_assoc]

/-- With pairwise-distinct ids (the table's primary key), running the
loop over the active-row snapshot rewrites exactly the active rows. -/
theorem applyUpdates_filter_active (price : ℚ) (qs : List Product)
    (hids : (qs.map Product.id).Nodup) :
    applyUpdates price (qs.filter fun q => q.is_active) qs =
      qs.map fun q => if q.is_active
        then { q with selling_price := newSelling price q } else q := by
  rw [applyUpdates_eq_map price _ qs ?hattrs]
  case hattrs =>
    intro t ht q hq hid
    have ht' := List.mem_filter.mp ht
    have heq : q = t := List.inj_on_of_nodup_map hids hq ht'.1 hid
    rw [heq]
  apply List.map_congr_left
  intro q hq
  by_cases ha : q.is_active
  · rw [if_pos ha, if_pos ?_]
    exact List.mem_map.mpr ⟨q, List.mem_filter.mpr ⟨hq, by simp [ha]⟩, rfl⟩
  · rw [if_neg ha, if_neg ?_]
    intro hmem
    obtain ⟨r, hr, hrid⟩ := List.mem_map.mp hmem
    have hr' := List.mem_filter.mp hr
    have heq : r = q := List.inj_on_of_nodup_map hids hr'.1 hq hrid
    apply ha
    rw [← heq]
    simpa using hr'.2

/-- Full characterization of a successful `POST /api/gold-price` run:
response and final state in closed form. -/
theorem postGoldPrice_spec (price : ℚ) (carat : String) (s : DBState)
    (hp : price ≠ 0) (hids : (s.products.map Product.id).Nodup) :
    postGoldPrice (some price) carat s = .ok
      (⟨((s.products.filter fun q => q.is_active).map (detailRow price)).length,
        (s.products.filter fun q => q.is_active).map (detailRow price)⟩,
       ⟨s.gold_prices ++ [⟨price, carat⟩],
        s.products.map (fun q => if q.is_active
          then { q with selling_price := newSelling price q } else q),
        s.price_history ++ (s.products.filter fun q => q.is_active).map (histRow price)⟩) := by
  rw [postGoldPrice, if_neg hp]
  simp only [runBatch_fst, runBatch_snd, List.nil_append]
  rw [applyUpdates_filter_active price _ hids]

/-- Claim C1: the claim says `applyNewGoldPrice(-5)` fails with
`InvalidInput` and leaves all persisted state unchanged.  The code's
guard `!price_per_gram || isNaN(price_per_gram)` accepts `-5`: on a
store with one active product the endpoint succeeds, inserts a
`gold_prices` row with `-5`, rewrites the product's `selling_price` to
`-5`, and appends a history row — the exact divergence this theorem
evaluates. -/
theorem claim_C1_negative_price_accepted : postGoldPrice (some (-5)) "24K" s1state =
    .ok (⟨1, [⟨1, "P", 100, -5, JsNum.num (-105)⟩]⟩,
         ⟨[⟨3000, "24K"⟩, ⟨-5, "24K"⟩],
          [⟨1, "P", 1, "24K", 0, 0, -5, true⟩],
          [⟨1, 100, -5, -5⟩]⟩) := by
  have hsell : (calculatePrice ⟨(1:ℚ), "24K", 0, 0⟩ (-5)).sellingPrice = -5 := by
    simp only [calculatePrice, caratFactors]
    norm_num +decide
    exact round2_eq_of (-500) (by norm_num) (by norm_num) (by norm_num)
  have hpc : percentChange (-5) 100 = .num (-105) := by
    rw [percentChange, if_neg (by norm_num : ¬((100:ℚ) = 0))]
    norm_num
  rw [postGoldPrice_spec (-5) "24K" s1state (by norm_num) (by decide)]
  simp +decide [s1state, detailRow, histRow, newSelling, Product.attrs, hsell, hpc]

/-- Claim C2: `calculatePrice` at weight 10.5, purity `24K` (factor 1),
making charges 7.5 %, profit margin 15 %, gold price 3000 returns
exactly goldValue 31500.00, makingCharges 2362.50, baseCost 33862.50 and
sellingPrice 38941.88, per the five-step formula. -/
theorem claim_C2_concrete_breakdown : calculatePrice ⟨10.5, "24K", 7.5, 15⟩ 3000 =
    { goldValue := 31500, makingCharges := 2362.50, baseCost := 33862.50,
      sellingPrice := 38941.88 } := by
  simp only [calculatePrice, caratFactors]
  norm_num
  refine ⟨round2_eq_of 3150000 ?_ ?_ ?_, round2_eq_of 236250 ?_ ?_ ?_,
    round2_eq_of 3386250 ?_ ?_ ?_, round2_eq_of 3894188 ?_ ?_ ?_⟩ <;> norm_num

/-- Claim C3 counterexample: the claim says each monetary intermediate is
rounded at the step where it is computed, later steps consuming the
rounded value.  At weight 1, `22K`, 5 % making charges, 10 % margin and
gold price 1, the stepwise-rounding discipline (`calculatePriceStepwise`,
modelled from the spec's words) yields baseCost 0.97, while the code
yields 0.96: the two computations disagree. -/
theorem claim_C3_stepwise_counterexample :
    calculatePrice ⟨1, "22K", 5, 10⟩ 1 ≠ calculatePriceStepwise ⟨1, "22K", 5, 10⟩ 1 := by
  have h1 : (calculatePrice ⟨1, "22K", 5, 10⟩ 1).baseCost = 24/25 := by
    simp only [calculatePrice, caratFactors]
    norm_num +decide
    exact round2_eq_of 96 (by norm_num) (by norm_num) (by norm_num)
  have egv : round2 ((9167:ℚ)/10000) = 23/25 := round2_eq_of 92 (by norm_num) (by norm_num) (by norm_num)
  have emc : round2 ((23:ℚ)/500) = 1/20 := round2_eq_of 5 (by norm_num) (by norm_num) (by norm_num)
  have ebc : round2 ((97:ℚ)/100) = 97/100 := round2_eq_of 97 (by norm_num) (by norm_num) (by norm_num)
  have h2 : (calculatePriceStepwise ⟨1, "22K", 5, 10⟩ 1).baseCost = 97/100 := by
    simp only [calculatePriceStepwise, caratFactors]
    norm_num +decide [egv, emc, ebc]
  intro h
  rw [h, h2] at h1
  norm_num at h1

/-- Claim C3 amended: rounding is deferred to the end of the
computation — `calculatePrice` computes all intermediates unrounded
(`calculatePriceRaw`) and rounds each of the four returned fields once,
in the returned object. -/
theorem claim_C3_rounding_at_end (p : ProductAttrs) (g : ℚ) :
    calculatePrice p g =
      { goldValue := round2 (calculatePriceRaw p g).goldValue,
        makingCharges := round2 (calculatePriceRaw p g).makingCharges,
        baseCost := round2 (calculatePriceRaw p g).baseCost,
        sellingPrice := round2 (calculatePriceRaw p g).sellingPrice } := rfl

/-- Claim C4: the claim says `calculatePrice` fails with `InvalidInput`
on `weightInGrams <= 0`, non-positive gold price, or negative
percentages.  The code performs no validation at all: at weight `-1`
(with `24K`, 5 % making charges, 10 % margin, gold price 3000) it
succeeds and returns the negative breakdown this theorem evaluates. -/
theorem claim_C4_no_validation : calculatePrice ⟨-1, "24K", 5, 10⟩ 3000 =
    { goldValue := -3000, makingCharges := -150, baseCost := -3150,
      sellingPrice := -3465 } := by
  simp only [calculatePrice, caratFactors]
  norm_num
  refine ⟨round2_eq_of (-300000) ?_ ?_ ?_, round2_eq_of (-15000) ?_ ?_ ?_,
    round2_eq_of (-315000) ?_ ?_ ?_, round2_eq_of (-346500) ?_ ?_ ?_⟩ <;> norm_num

/-- Claim C5: for any store whose product ids are pairwise distinct (the
table's primary key) and any accepted price, `POST /api/gold-price`
recomputes and persists the selling price of exactly the active
products, appends exactly one history row per active product (inactive
products keep their selling price and gain no history entry), and the
reported updated count equals the number of active products. -/
theorem claim_C5_batch_updates_active (price : ℚ) (carat : String) (s : DBState)
    (hp : price ≠ 0) (hids : (s.products.map Product.id).Nodup) :
    ∃ resp s', postGoldPrice (some price) carat s = .ok (resp, s') ∧
      resp.updated_products = (s.products.filter fun q => q.is_active).length ∧
      s'.products = s.products.map (fun q => if q.is_active
        then { q with selling_price := newSelling price q } else q) ∧
      s'.price_history = s.price_history ++
        (s.products.filter fun q => q.is_active).map (histRow price) := by
  refine ⟨_, _, postGoldPrice_spec price carat s hp hids, ?_, rfl, rfl⟩
  simp [List.length_map]

/-- Witness for claim C5 at the spec's scenario: four active products
plus one inactive product, so the updated count is 4. -/
theorem claim_C5_batch_witness :
    ((100:ℚ) ≠ 0) ∧ (sBatch.products.map Product.id).Nodup ∧
    (sBatch.products.filter fun q => q.is_active).length = 4 ∧
    (∃ resp s', postGoldPrice (some 100) "24K" sBatch = .ok (resp, s') ∧
      resp.updated_products = (sBatch.products.filter fun q => q.is_active).length ∧
      s'.products = sBatch.products.map (fun q => if q.is_active
        then { q with selling_price := newSelling 100 q } else q) ∧
      s'.price_history = sBatch.price_history ++
        (sBatch.products.filter fun q => q.is_active).map (histRow 100)) :=
  ⟨by norm_num, by decide, by decide,
    claim_C5_batch_updates_active 100 "24K" sBatch (by norm_num) (by decide)⟩

/-- Claim C6: the claim says a product whose stored price is 0 has its
percent change reported as unmeasurable/null.  The code divides by zero:
on a store with one active product priced 0 and new gold price 100, the
detail's change is the JavaScript `Infinity` value, not a null marker —
the divergence this theorem evaluates. -/
theorem claim_C6_division_by_zero : postGoldPrice (some 100) "24K" s6state =
    .ok (⟨1, [⟨1, "Z", 0, 100, JsNum.inf⟩]⟩,
         ⟨[⟨3000, "24K"⟩, ⟨100, "24K"⟩],
          [⟨1, "Z", 1, "24K", 0, 0, 100, true⟩],
          [⟨1, 0, 100, 100⟩]⟩) := by
  have hsell : (calculatePrice ⟨(1:ℚ), "24K", 0, 0⟩ 100).sellingPrice = 100 := by
    simp only [calculatePrice, caratFactors]
    norm_num +decide
    exact round2_eq_of 10000 (by norm_num) (by norm_num) (by norm_num)
  have hpc : percentChange 100 0 = .inf := by
    rw [percentChange, if_pos rfl, if_pos (by norm_num)]
  rw [postGoldPrice_spec 100 "24K" s6state (by norm_num) (by decide)]
  simp +decide [s6state, detailRow, histRow, newSelling, Product.attrs, hsell, hpc]

/-- Claim C7: the purity lookup is total — every label outside the fixed
table gets factor 1.0 — and concretely `calculatePrice` at weight 10,
label `99K`, 5 % making charges, 10 % margin, gold price 3000 has
goldValue 30000. -/
theorem claim_C7_purity_default :
    (∀ c : String, c ∉ (["24K", "22K", "21K", "18K", "14K", "10K"] : List String) →
      caratFactors c = 1) ∧
    (calculatePrice ⟨10, "99K", 5, 10⟩ 3000).goldValue = 30000 := by
  constructor
  · intro c hc
    simp only [List.mem_cons, List.not_mem_nil, or_false, not_or] at hc
    obtain ⟨h1, h2, h3, h4, h5, h6⟩ := hc
    simp [caratFactors, h1, h2, h3, h4, h5, h6]
  · simp only [calculatePrice, caratFactors]
    norm_num +decide
    exact round2_eq_of 3000000 (by norm_num) (by norm_num) (by norm_num)

/-- Witness for claim C7 at the label `99K`. -/
theorem claim_C7_purity_default_witness :
    ("99K" ∉ (["24K", "22K", "21K", "18K", "14K", "10K"] : List String)) ∧
    caratFactors "99K" = 1 :=
  ⟨by decide, claim_C7_purity_default.1 "99K" (by decide)⟩

/-- Claim C8 counterexample: the claim says a strictly larger gold price
gives a strictly larger selling price.  For a 1-gram `24K` product with
0 % charges and margin, the prices 100.001 < 100.002 both round to a
selling price of exactly 100, refuting strictness. -/
theorem claim_C8_strict_counterexample : ((100001:ℚ)/1000 < 100002/1000) ∧
    (calculatePrice ⟨1, "24K", 0, 0⟩ (100001/1000)).sellingPrice
      = (calculatePrice ⟨1, "24K", 0, 0⟩ (100002/1000)).sellingPrice := by
  constructor
  · norm_num
  · have ha : (calculatePrice ⟨1, "24K", 0, 0⟩ (100001/1000)).sellingPrice = 100 := by
      simp only [calculatePrice, caratFactors]
      norm_num
      exact round2_eq_of 10000 (by norm_num) (by norm_num) (by norm_num)
    have hb : (calculatePrice ⟨1, "24K", 0, 0⟩ (100002/1000)).sellingPrice = 100 := by
      simp only [calculatePrice, caratFactors]
      norm_num
      exact round2_eq_of 10000 (by norm_num) (by norm_num) (by norm_num)
    rw [ha, hb]

/-- Claim C8 amended: for positive weight and non-negative percentages,
increasing the gold price weakly increases the selling price (the
unrounded value increases strictly, but the 2-decimal rounding can
collapse the difference). -/
theorem claim_C8_monotone (p : ProductAttrs) (g1 g2 : ℚ) (hw : 0 < p.weight)
    (hm : 0 ≤ p.making_charges) (hpm : 0 ≤ p.profit_margin) (hg : g1 < g2) :
    (calculatePrice p g1).sellingPrice ≤ (calculatePrice p g2).sellingPrice := by
  have hf : 0 < caratFactors p.carat := caratFactors_pos p.carat
  have h1 : (0:ℚ) < 1 + p.making_charges / 100 := by linarith
  have h2 : (0:ℚ) < 1 + p.profit_margin / 100 := by linarith
  simp only [calculatePrice]
  apply round2_mono
  have key : ∀ g : ℚ, (p.weight * g * caratFactors p.carat +
      p.weight * g * caratFactors p.carat * (p.making_charges / 100)) *
        (1 + p.profit_margin / 100)
      = (p.weight * caratFactors p.carat * (1 + p.making_charges / 100) *
          (1 + p.profit_margin / 100)) * g := by
    intro g; ring
  rw [key, key]
  exact mul_le_mul_of_nonneg_left hg.le
    (le_of_lt (mul_pos (mul_pos (mul_pos hw hf) h1) h2))

/-- Witness for the amended claim C8 at a concrete product and pair of
prices. -/
theorem claim_C8_monotone_witness :
    ((0:ℚ) < (⟨2, "18K", 5, 10⟩ : ProductAttrs).weight) ∧
    ((0:ℚ) ≤ (⟨2, "18K", 5, 10⟩ : ProductAttrs).making_charges) ∧
    ((0:ℚ) ≤ (⟨2, "18K", 5, 10⟩ : ProductAttrs).profit_margin) ∧
    ((100:ℚ) < 200) ∧
    (calculatePrice ⟨2, "18K", 5, 10⟩ 100).sellingPrice ≤
      (calculatePrice ⟨2, "18K", 5, 10⟩ 200).sellingPrice :=
  ⟨by norm_num, by norm_num, by norm_num, by norm_num,
    claim_C8_monotone ⟨2, "18K", 5, 10⟩ 100 200
      (by norm_num) (by norm_num) (by norm_num) (by norm_num)⟩

/-- Claim C9: the two backend variants' purity tables diverge at `22K`
(0.916 versus 0.9167) and agree on the other labels both tables carry;
consequently, for a 1-gram `22K` product with 0 % charges and margin at
gold price 10000, variant 1 stores 9160 while variant 2 computes a
selling price of 9167 — the two pricing functions are not equivalent. -/
theorem claim_C9_variants_diverge : caratFactorsV1 "22K" = 916/1000 ∧
    caratFactors "22K" = 9167/10000 ∧
    caratFactorsV1 "24K" = caratFactors "24K" ∧
    caratFactorsV1 "21K" = caratFactors "21K" ∧
    caratFactorsV1 "18K" = caratFactors "18K" ∧
    caratFactorsV1 "14K" = caratFactors "14K" ∧
    calculatePriceV1 ⟨1, "22K", 0, 0⟩ 10000 ≠
      (calculatePrice ⟨1, "22K", 0, 0⟩ 10000).sellingPrice := by
  refine ⟨by norm_num +decide [caratFactorsV1], by norm_num +decide [caratFactors],
    by norm_num +decide [caratFactorsV1, caratFactors],
    by norm_num +decide [caratFactorsV1, caratFactors],
    by norm_num +decide [caratFactorsV1, caratFactors],
    by norm_num +decide [caratFactorsV1, caratFactors], ?_⟩
  have ha : calculatePriceV1 ⟨1, "22K", 0, 0⟩ 10000 = 9160 := by
    simp only [calculatePriceV1, caratFactorsV1]
    norm_num +decide
    rw [jround_eq (by norm_num : ((9160:ℤ):ℚ) ≤ 9160 + 1/2) (by norm_num)]
    norm_num
  have hb : (calculatePrice ⟨1, "22K", 0, 0⟩ 10000).sellingPrice = 9167 := by
    simp only [calculatePrice, caratFactors]
    norm_num +decide
    exact round2_eq_of 916700 (by norm_num) (by norm_num) (by norm_num)
  rw [ha, hb]
  norm_num

/-- Claim C10: `GET /api/products/:id` returns 404 whenever every row
with the requested id is inactive (in particular when the product exists
but is inactive, and when no such row exists), and any row it returns is
active with the requested id. -/
theorem claim_C10_inactive_not_found :
    (∀ (s : DBState) (pid : ℤ), (∀ q ∈ s.products, q.id = pid → q.is_active = false) →
      getProductById s pid = .error (.notFound "Product not found")) ∧
    (∀ (s : DBState) (pid : ℤ) (q : Product),
      getProductById s pid = .ok q → q.id = pid ∧ q.is_active = true) := by
  constructor
  · intro s pid h
    simp only [getProductById]
    have hnone : s.products.find? (fun q => q.id == pid && q.is_active) = none := by
      rw [List.find?_eq_none]
      intro q hq
      simp only [Bool.and_eq_true, beq_iff_eq, not_and]
      intro hip
      rw [h q hq hip]
      simp
    rw [hnone]
  · intro s pid q h
    simp only [getProductById] at h
    cases hf : s.products.find? (fun q => q.id == pid && q.is_active) with
    | none => rw [hf] at h; exact Except.noConfusion h
    | some r =>
      rw [hf] at h
      have hr := List.find?_some hf
      simp only [Bool.and_eq_true, beq_iff_eq] at hr
      cases h
      exact hr

/-- Witness for claim C10: a store holding one inactive product with
id 1 answers 404 for id 1. -/
theorem claim_C10_inactive_witness :
    (∀ q ∈ s10state.products, q.id = 1 → q.is_active = false) ∧
    getProductById s10state 1 = .error (.notFound "Product not found") := by
  have hpre : ∀ q ∈ s10state.products, q.id = 1 → q.is_active = false := by
    intro q hq _
    simp only [s10state, List.mem_singleton] at hq
    rw [hq]
  exact ⟨hpre, claim_C10_inactive_not_found.1 s10state 1 hpre⟩

end GoldShop
